import Mathlib

/-!
Shallow embedding of the Unicorn Ranch simulation engine
(`src/gameLogic.js`) and verification of its specification.

JavaScript numbers are modelled as rationals (`ℚ`); the nullable zone
string is modelled as `Option String`, mirroring the string comparisons
`zone === 'lake'` etc. in the source.  The JS field `fun` is spelled
`fun_` because `fun` is a Lean keyword.
-/

/-- The needs record `{hunger, thirst, energy, fun}` from gameLogic.js. -/
structure Needs where
  hunger : ℚ
  thirst : ℚ
  energy : ℚ
  fun_ : ℚ
  deriving DecidableEq

/-- The monster record `{x, y, chomp}` from gameLogic.js. -/
structure Monster where
  x : ℚ
  y : ℚ
  chomp : Bool
  deriving DecidableEq

/-- The game state record from gameLogic.js (`createInitialState`'s shape). -/
structure GameState where
  x : ℚ
  y : ℚ
  needs : Needs
  level : ℚ
  levelTime : ℚ
  status : Option String
  eaten : Bool
  monster : Monster
  deriving DecidableEq

/-- `DRAIN_GROWTH = 0.80` from gameLogic.js. -/
def DRAIN_GROWTH : ℚ := 8 / 10

/-- `RECHARGE_GROWTH = 0.30` from gameLogic.js. -/
def RECHARGE_GROWTH : ℚ := 3 / 10

/-- `LEVEL_TIME = 30` from gameLogic.js. -/
def LEVEL_TIME : ℚ := 30

/-- The four need names, used as keys into `BASE_DRAIN` and by
`calculateNetNeedChange(needType, ...)` in gameLogic.js. -/
inductive NeedType
  | hunger
  | thirst
  | energy
  | fun_
  deriving DecidableEq

/-- `BASE_DRAIN = { hunger: 1.0, thirst: 1.0, energy: 1.0, fun: 1.0 }`. -/
def BASE_DRAIN : NeedType → ℚ
  | .hunger => 1
  | .thirst => 1
  | .energy => 1
  | .fun_ => 1

/-- Field access `needs[needType]` on the needs record. -/
def Needs.get (n : Needs) : NeedType → ℚ
  | .hunger => n.hunger
  | .thirst => n.thirst
  | .energy => n.energy
  | .fun_ => n.fun_

/-- `clamp(v, min, max)` from gameLogic.js: `Math.max(min, Math.min(max, v))`. -/
def clamp (v mn mx : ℚ) : ℚ := max mn (min mx v)

/-- `createInitialState()` from gameLogic.js. -/
def createInitialState : GameState :=
  { x := 15, y := 25,
    needs := { hunger := 100, thirst := 100, energy := 100, fun_ := 100 },
    level := 1, levelTime := LEVEL_TIME, status := none, eaten := false,
    monster := { x := -20, y := 50, chomp := false } }

/-- `calculateDrainMultiplier(level)` from gameLogic.js. -/
def calculateDrainMultiplier (level : ℚ) : ℚ := 1 + (level - 1) * DRAIN_GROWTH

/-- `calculateRechargeMultiplier(level)` from gameLogic.js. -/
def calculateRechargeMultiplier (level : ℚ) : ℚ := 1 + (level - 1) * RECHARGE_GROWTH

/-- `applyDrain(needs, level, dt)` from gameLogic.js: every field drops by
`BASE_DRAIN[field] * drainMult * dt` and is clamped to [0, 100]. -/
def applyDrain (needs : Needs) (level dt : ℚ) : Needs :=
  let drainMult := calculateDrainMultiplier level
  { hunger := clamp (needs.hunger - BASE_DRAIN .hunger * drainMult * dt) 0 100,
    thirst := clamp (needs.thirst - BASE_DRAIN .thirst * drainMult * dt) 0 100,
    energy := clamp (needs.energy - BASE_DRAIN .energy * drainMult * dt) 0 100,
    fun_ := clamp (needs.fun_ - BASE_DRAIN .fun_ * drainMult * dt) 0 100 }

/-- `applyRecharge(needs, zone, level, dt)` from gameLogic.js: the source
copies the record, then runs four independent `if (zone === '...')`
updates (base rates: lake→thirst 6, field→hunger 6, barn→energy 8,
play→fun 6), each clamped to [0, 100]. -/
def applyRecharge (needs : Needs) (zone : Option String) (level dt : ℚ) : Needs :=
  let rechargeMult := calculateRechargeMultiplier level
  let u1 := if zone = some "lake" then
    { needs with thirst := clamp (needs.thirst + 6 * rechargeMult * dt) 0 100 } else needs
  let u2 := if zone = some "field" then
    { u1 with hunger := clamp (u1.hunger + 6 * rechargeMult * dt) 0 100 } else u1
  let u3 := if zone = some "barn" then
    { u2 with energy := clamp (u2.energy + 8 * rechargeMult * dt) 0 100 } else u2
  if zone = some "play" then
    { u3 with fun_ := clamp (u3.fun_ + 6 * rechargeMult * dt) 0 100 } else u3

/-- `updateNeeds(needs, zone, level, dt)` from gameLogic.js: drain, then recharge. -/
def updateNeeds (needs : Needs) (zone : Option String) (level dt : ℚ) : Needs :=
  applyRecharge (applyDrain needs level dt) zone level dt

/-- `checkGameOver(needs)` from gameLogic.js:
`Object.values(needs).some(v => v <= 0)`. -/
def checkGameOver (needs : Needs) : Bool :=
  decide (needs.hunger ≤ 0) || decide (needs.thirst ≤ 0) ||
  decide (needs.energy ≤ 0) || decide (needs.fun_ ≤ 0)

/-- `checkLevelComplete(levelTime)` from gameLogic.js: `levelTime <= 0`. -/
def checkLevelComplete (levelTime : ℚ) : Bool := decide (levelTime ≤ 0)

/-- `createNextLevelState(currentState)` from gameLogic.js.  Note the
monster is reset to the literal `{x: -20, y: 50, chomp: false}`. -/
def createNextLevelState (currentState : GameState) : GameState :=
  { currentState with
    level := currentState.level + 1,
    needs := { hunger := 100, thirst := 100, energy := 100, fun_ := 100 },
    levelTime := LEVEL_TIME,
    status := none,
    eaten := false,
    monster := { x := -20, y := 50, chomp := false } }

/-- `updateLevelTimer(currentTime, dt)` from gameLogic.js. -/
def updateLevelTimer (currentTime dt : ℚ) : ℚ := currentTime - dt

/-- `createMonsterChaseState(currentState)` from gameLogic.js: the monster's
`y` here is `currentState.y`, the unicorn's current height. -/
def createMonsterChaseState (currentState : GameState) : GameState :=
  { currentState with
    eaten := true,
    monster := { x := -20, y := currentState.y, chomp := false } }

/-- The `zoneToNeed` lookup table local to `calculateNetNeedChange` in
gameLogic.js; unknown keys give `undefined`, modelled as `none`. -/
def zoneToNeed (zone : String) : Option NeedType :=
  if zone = "lake" then some .thirst
  else if zone = "field" then some .hunger
  else if zone = "barn" then some .energy
  else if zone = "play" then some .fun_
  else none

/-- `Object.values(BASE_RECHARGE[zone])[0]` in gameLogic.js, evaluated only
for the four recognized zones (the `else 0` branch is unreachable there). -/
def baseRechargeRate (zone : String) : ℚ :=
  if zone = "lake" then 6
  else if zone = "field" then 6
  else if zone = "barn" then 8
  else if zone = "play" then 6
  else 0

/-- `calculateNetNeedChange(needType, zone, level, dt)` from gameLogic.js. -/
def calculateNetNeedChange (needType : NeedType) (zone : Option String) (level dt : ℚ) : ℚ :=
  let drainMult := calculateDrainMultiplier level
  let rechargeMult := calculateRechargeMultiplier level
  let change := -BASE_DRAIN needType * drainMult * dt
  match zone with
  | some z =>
      if zoneToNeed z = some needType then change + baseRechargeRate z * rechargeMult * dt
      else change
  | none => change

/-- The NeedsVector invariant of the spec: every field lies in [0, 100]. -/
def InRange (n : Needs) : Prop :=
  0 ≤ n.hunger ∧ n.hunger ≤ 100 ∧ 0 ≤ n.thirst ∧ n.thirst ≤ 100 ∧
  0 ≤ n.energy ∧ n.energy ≤ 100 ∧ 0 ≤ n.fun_ ∧ n.fun_ ≤ 100

instance (n : Needs) : Decidable (InRange n) := by
  unfold InRange
  infer_instance

/-! ### Helper lemmas -/

theorem clamp_nonneg (v : ℚ) : 0 ≤ clamp v 0 100 := le_max_left 0 _

theorem clamp_le_100 (v : ℚ) : clamp v 0 100 ≤ 100 :=
  max_le (by norm_num) (min_le_left 100 v)

theorem clamp_eq_self (v : ℚ) (h0 : 0 ≤ v) (h1 : v ≤ 100) : clamp v 0 100 = v := by
  unfold clamp
  rw [min_eq_right h1, max_eq_right h0]

theorem clamp_le_of_le (v a : ℚ) (ha : 0 ≤ a) (h : v ≤ a) : clamp v 0 100 ≤ a :=
  max_le ha (le_trans (min_le_right 100 v) h)

theorem applyRecharge_none (n : Needs) (level dt : ℚ) :
    applyRecharge n none level dt = n := rfl

theorem applyRecharge_lake (n : Needs) (level dt : ℚ) :
    applyRecharge n (some "lake") level dt =
      { n with thirst := clamp (n.thirst + 6 * calculateRechargeMultiplier level * dt) 0 100 } := rfl

theorem applyRecharge_field (n : Needs) (level dt : ℚ) :
    applyRecharge n (some "field") level dt =
      { n with hunger := clamp (n.hunger + 6 * calculateRechargeMultiplier level * dt) 0 100 } := rfl

theorem applyRecharge_barn (n : Needs) (level dt : ℚ) :
    applyRecharge n (some "barn") level dt =
      { n with energy := clamp (n.energy + 8 * calculateRechargeMultiplier level * dt) 0 100 } := rfl

theorem applyRecharge_play (n : Needs) (level dt : ℚ) :
    applyRecharge n (some "play") level dt =
      { n with fun_ := clamp (n.fun_ + 6 * calculateRechargeMultiplier level * dt) 0 100 } := rfl

theorem applyRecharge_unmatched (n : Needs) (zone : Option String) (level dt : ℚ)
    (h1 : zone ≠ some "lake") (h2 : zone ≠ some "field")
    (h3 : zone ≠ some "barn") (h4 : zone ≠ some "play") :
    applyRecharge n zone level dt = n := by
  simp [applyRecharge, h1, h2, h3, h4]

theorem applyDrain_get (n : Needs) (level dt : ℚ) (t : NeedType) :
    (applyDrain n level dt).get t =
      clamp (n.get t - BASE_DRAIN t * calculateDrainMultiplier level * dt) 0 100 := by
  cases t <;> rfl

theorem applyDrain_inRange (n : Needs) (level dt : ℚ) : InRange (applyDrain n level dt) :=
  ⟨clamp_nonneg _, clamp_le_100 _, clamp_nonneg _, clamp_le_100 _,
   clamp_nonneg _, clamp_le_100 _, clamp_nonneg _, clamp_le_100 _⟩

theorem applyRecharge_inRange (n : Needs) (zone : Option String) (level dt : ℚ)
    (h : InRange n) : InRange (applyRecharge n zone level dt) := by
  obtain ⟨h1, h2, h3, h4, h5, h6, h7, h8⟩ := h
  by_cases z1 : zone = some "lake"
  · subst z1
    rw [applyRecharge_lake]
    exact ⟨h1, h2, clamp_nonneg _, clamp_le_100 _, h5, h6, h7, h8⟩
  by_cases z2 : zone = some "field"
  · subst z2
    rw [applyRecharge_field]
    exact ⟨clamp_nonneg _, clamp_le_100 _, h3, h4, h5, h6, h7, h8⟩
  by_cases z3 : zone = some "barn"
  · subst z3
    rw [applyRecharge_barn]
    exact ⟨h1, h2, h3, h4, clamp_nonneg _, clamp_le_100 _, h7, h8⟩
  by_cases z4 : zone = some "play"
  · subst z4
    rw [applyRecharge_play]
    exact ⟨h1, h2, h3, h4, h5, h6, clamp_nonneg _, clamp_le_100 _⟩
  rw [applyRecharge_unmatched n zone level dt z1 z2 z3 z4]
  exact ⟨h1, h2, h3, h4, h5, h6, h7, h8⟩

theorem applyRecharge_get_matched (m : Needs) (z : String) (level dt : ℚ) (t : NeedType)
    (h : zoneToNeed z = some t) :
    (applyRecharge m (some z) level dt).get t =
      clamp (m.get t + baseRechargeRate z * calculateRechargeMultiplier level * dt) 0 100 := by
  unfold zoneToNeed at h
  split_ifs at h with h1 h2 h3 h4
  · subst h1
    injection h with h
    subst h
    rfl
  · subst h2
    injection h with h
    subst h
    rfl
  · subst h3
    injection h with h
    subst h
    rfl
  · subst h4
    injection h with h
    subst h
    rfl

theorem applyRecharge_get_of_ne (m : Needs) (z : String) (level dt : ℚ) (t : NeedType)
    (h : zoneToNeed z ≠ some t) :
    (applyRecharge m (some z) level dt).get t = m.get t := by
  by_cases h1 : z = "lake"
  · subst h1
    rw [applyRecharge_lake]
    cases t
    · rfl
    · exact absurd rfl h
    · rfl
    · rfl
  by_cases h2 : z = "field"
  · subst h2
    rw [applyRecharge_field]
    cases t
    · exact absurd rfl h
    · rfl
    · rfl
    · rfl
  by_cases h3 : z = "barn"
  · subst h3
    rw [applyRecharge_barn]
    cases t
    · rfl
    · rfl
    · exact absurd rfl h
    · rfl
  by_cases h4 : z = "play"
  · subst h4
    rw [applyRecharge_play]
    cases t
    · rfl
    · rfl
    · rfl
    · exact absurd rfl h
  rw [applyRecharge_unmatched m (some z) level dt (by simpa using h1) (by simpa using h2)
    (by simpa using h3) (by simpa using h4)]

theorem netChange_none (t : NeedType) (level dt : ℚ) :
    calculateNetNeedChange t none level dt =
      -BASE_DRAIN t * calculateDrainMultiplier level * dt := rfl

theorem netChange_matched (t : NeedType) (z : String) (level dt : ℚ)
    (h : zoneToNeed z = some t) :
    calculateNetNeedChange t (some z) level dt =
      baseRechargeRate z * calculateRechargeMultiplier level * dt
        - BASE_DRAIN t * calculateDrainMultiplier level * dt := by
  simp only [calculateNetNeedChange, h, if_pos]
  ring

theorem netChange_unmatched (t : NeedType) (z : String) (level dt : ℚ)
    (h : zoneToNeed z ≠ some t) :
    calculateNetNeedChange t (some z) level dt =
      -BASE_DRAIN t * calculateDrainMultiplier level * dt := by
  simp only [calculateNetNeedChange, h, if_neg, if_false]

/-! ### Claims -/

/-- C1: for every NeedsVector whose four fields are each in [0, 100], every
zone (including no zone and unrecognized tags), every level, and every
dt ≥ 0, each of `applyDrain`, `applyRecharge`, and the combined step
`updateNeeds` returns a NeedsVector whose four fields are each in [0, 100]. -/
theorem c1_range_invariant (n : Needs) (zone : Option String) (level dt : ℚ)
    (h : InRange n) (hdt : 0 ≤ dt) :
    InRange (applyDrain n level dt) ∧ InRange (applyRecharge n zone level dt) ∧
    InRange (updateNeeds n zone level dt) :=
  ⟨applyDrain_inRange n level dt, applyRecharge_inRange n zone level dt h,
   applyRecharge_inRange _ zone level dt (applyDrain_inRange n level dt)⟩

theorem c1_witness :
    InRange (applyDrain ⟨50, 60, 70, 80⟩ 2 (1/2)) ∧
    InRange (applyRecharge ⟨50, 60, 70, 80⟩ (some "lake") 2 (1/2)) ∧
    InRange (updateNeeds ⟨50, 60, 70, 80⟩ (some "lake") 2 (1/2)) :=
  c1_range_invariant ⟨50, 60, 70, 80⟩ (some "lake") 2 (1/2) (by decide) (by norm_num)

/-- C2: for every in-range NeedsVector, level ≥ 1, and dt ≥ 0, `applyDrain`
decreases each of the four fields by `BASE_DRAIN × drainMultiplier(level) × dt`,
clamping each result to [0, 100] independently; consequently every field of
the result is in [0, 100] and is ≤ the corresponding input field. -/
theorem c2_drain (n : Needs) (level dt : ℚ)
    (h : InRange n) (hlevel : 1 ≤ level) (hdt : 0 ≤ dt) :
    (∀ t : NeedType, (applyDrain n level dt).get t =
        clamp (n.get t - BASE_DRAIN t * calculateDrainMultiplier level * dt) 0 100) ∧
    InRange (applyDrain n level dt) ∧
    ∀ t : NeedType, (applyDrain n level dt).get t ≤ n.get t := by
  refine ⟨applyDrain_get n level dt, applyDrain_inRange n level dt, ?_⟩
  intro t
  have hmult : 0 ≤ calculateDrainMultiplier level := by
    unfold calculateDrainMultiplier DRAIN_GROWTH
    nlinarith
  have hB : 0 ≤ BASE_DRAIN t := by cases t <;> norm_num [BASE_DRAIN]
  have hamt : 0 ≤ BASE_DRAIN t * calculateDrainMultiplier level * dt :=
    mul_nonneg (mul_nonneg hB hmult) hdt
  have hget0 : 0 ≤ n.get t := by
    obtain ⟨h1, h2, h3, h4, h5, h6, h7, h8⟩ := h
    cases t
    · exact h1
    · exact h3
    · exact h5
    · exact h7
  rw [applyDrain_get]
  exact clamp_le_of_le _ _ hget0 (by linarith)

theorem c2_witness :
    InRange (applyDrain ⟨50, 60, 70, 80⟩ 3 (1/4)) :=
  (c2_drain ⟨50, 60, 70, 80⟩ 3 (1/4) (by decide) (by norm_num) (by norm_num)).2.1

/-- C3: for every NeedsVector, level, and dt, `applyRecharge` with a
recognized zone increases exactly the one need mapped to that zone
(lake→thirst at base 6, field→hunger at base 6, barn→energy at base 8,
play→fun at base 6) by `base × rechargeMultiplier(level) × dt` clamped to
[0, 100], leaving the other three fields exactly unchanged; with no zone or
any unrecognized tag, all four fields are returned exactly unchanged. -/
theorem c3_recharge_frame (n : Needs) (level dt : ℚ) (zone : Option String)
    (hz : zone ≠ some "lake" ∧ zone ≠ some "field" ∧
          zone ≠ some "barn" ∧ zone ≠ some "play") :
    applyRecharge n (some "lake") level dt =
      { n with thirst := clamp (n.thirst + 6 * calculateRechargeMultiplier level * dt) 0 100 } ∧
    applyRecharge n (some "field") level dt =
      { n with hunger := clamp (n.hunger + 6 * calculateRechargeMultiplier level * dt) 0 100 } ∧
    applyRecharge n (some "barn") level dt =
      { n with energy := clamp (n.energy + 8 * calculateRechargeMultiplier level * dt) 0 100 } ∧
    applyRecharge n (some "play") level dt =
      { n with fun_ := clamp (n.fun_ + 6 * calculateRechargeMultiplier level * dt) 0 100 } ∧
    applyRecharge n zone level dt = n :=
  ⟨applyRecharge_lake n level dt, applyRecharge_field n level dt,
   applyRecharge_barn n level dt, applyRecharge_play n level dt,
   applyRecharge_unmatched n zone level dt hz.1 hz.2.1 hz.2.2.1 hz.2.2.2⟩

theorem c3_witness :
    applyRecharge ⟨10, 20, 30, 40⟩ (some "cloud") 2 5 = ⟨10, 20, 30, 40⟩ :=
  (c3_recharge_frame ⟨10, 20, 30, 40⟩ 2 5 (some "cloud")
    ⟨by decide, by decide, by decide, by decide⟩).2.2.2.2

/-- C4: for every need name, zone, level, dt, and input NeedsVector such
that no clamping boundary is crossed during the combined step (the drained
value of that need stays in [0, 100], and so does the input value plus the
net change), `calculateNetNeedChange needType zone level dt` equals
`(updateNeeds needs zone level dt).get needType - needs.get needType`. -/
theorem c4_netNeedChange (t : NeedType) (zone : Option String) (level dt : ℚ) (n : Needs)
    (hd0 : 0 ≤ n.get t - BASE_DRAIN t * calculateDrainMultiplier level * dt)
    (hd1 : n.get t - BASE_DRAIN t * calculateDrainMultiplier level * dt ≤ 100)
    (hr0 : 0 ≤ n.get t + calculateNetNeedChange t zone level dt)
    (hr1 : n.get t + calculateNetNeedChange t zone level dt ≤ 100) :
    calculateNetNeedChange t zone level dt =
      (updateNeeds n zone level dt).get t - n.get t := by
  have hdg : (applyDrain n level dt).get t =
      n.get t - BASE_DRAIN t * calculateDrainMultiplier level * dt := by
    rw [applyDrain_get, clamp_eq_self _ hd0 hd1]
  rcases zone with _ | z
  · rw [updateNeeds, applyRecharge_none, hdg, netChange_none]
    ring
  · by_cases hmatch : zoneToNeed z = some t
    · rw [netChange_matched t z level dt hmatch] at hr0 hr1 ⊢
      rw [updateNeeds, applyRecharge_get_matched _ _ _ _ _ hmatch, hdg,
        clamp_eq_self _ (by linarith) (by linarith)]
      ring
    · rw [netChange_unmatched t z level dt hmatch]
      rw [updateNeeds, applyRecharge_get_of_ne _ _ _ _ _ hmatch, hdg]
      ring

theorem c4_witness :
    calculateNetNeedChange NeedType.thirst (some "lake") 1 (1/10) =
      (updateNeeds ⟨50, 50, 50, 50⟩ (some "lake") 1 (1/10)).get NeedType.thirst
        - (⟨50, 50, 50, 50⟩ : Needs).get NeedType.thirst :=
  c4_netNeedChange NeedType.thirst (some "lake") 1 (1/10) ⟨50, 50, 50, 50⟩
    (by norm_num [Needs.get, BASE_DRAIN, calculateDrainMultiplier, DRAIN_GROWTH])
    (by norm_num [Needs.get, BASE_DRAIN, calculateDrainMultiplier, DRAIN_GROWTH])
    (by norm_num [Needs.get, calculateNetNeedChange, zoneToNeed, baseRechargeRate,
      BASE_DRAIN, calculateDrainMultiplier, calculateRechargeMultiplier,
      DRAIN_GROWTH, RECHARGE_GROWTH])
    (by norm_num [Needs.get, calculateNetNeedChange, zoneToNeed, baseRechargeRate,
      BASE_DRAIN, calculateDrainMultiplier, calculateRechargeMultiplier,
      DRAIN_GROWTH, RECHARGE_GROWTH])

/-- C5: for every NeedsVector, `checkGameOver` returns true iff at least one
of the four fields is ≤ 0; and for every levelTime value,
`checkLevelComplete` returns true iff levelTime ≤ 0. -/
theorem c5_terminal_predicates (n : Needs) (levelTime : ℚ) :
    (checkGameOver n = true ↔
      (n.hunger ≤ 0 ∨ n.thirst ≤ 0 ∨ n.energy ≤ 0 ∨ n.fun_ ≤ 0)) ∧
    (checkLevelComplete levelTime = true ↔ levelTime ≤ 0) := by
  constructor
  · simp [checkGameOver, or_assoc]
  · simp [checkLevelComplete]

/-- C6: for every GameState, `createNextLevelState` increments level by 1,
resets all four needs to 100, resets levelTime to 30, clears status and
eaten, resets the monster to `{x: -20, y: 50, chomp: false}`, and leaves the
unicorn's position (x, y) exactly unchanged. -/
theorem c6_nextLevelState (s : GameState) :
    (createNextLevelState s).level = s.level + 1 ∧
    (createNextLevelState s).needs = { hunger := 100, thirst := 100, energy := 100, fun_ := 100 } ∧
    (createNextLevelState s).levelTime = 30 ∧
    (createNextLevelState s).status = none ∧
    (createNextLevelState s).eaten = false ∧
    (createNextLevelState s).monster = { x := -20, y := 50, chomp := false } ∧
    (createNextLevelState s).x = s.x ∧
    (createNextLevelState s).y = s.y :=
  ⟨rfl, rfl, rfl, rfl, rfl, rfl, rfl, rfl⟩

/-- C7 counterexample: on the spec's own level-transition scenario (unicorn
at position (75, 80)), the monster produced by `createNextLevelState` has
y = 50, not the unicorn's vertical position 80 — the claimed y-matching is
false for `createNextLevelState`. -/
theorem c7_counterexample :
    ¬ ((createNextLevelState
          ⟨75, 80, ⟨20, 30, 40, 50⟩, 3, 0, none, true, ⟨50, 50, true⟩⟩).monster.y =
        (⟨75, 80, ⟨20, 30, 40, 50⟩, 3, 0, none, true, ⟨50, 50, true⟩⟩ : GameState).y) := by
  decide

/-- C7 (amended): for every GameState, the monster produced by the
level-transition reset (`createNextLevelState`) has x = -20, chomp = false,
and y = 50 — a fixed constant independent of the unicorn's vertical
position, which itself carries over unchanged. -/
theorem c7_amended_monster_reset (s : GameState) :
    (createNextLevelState s).monster.x = -20 ∧
    (createNextLevelState s).monster.y = 50 ∧
    (createNextLevelState s).monster.chomp = false ∧
    (createNextLevelState s).y = s.y :=
  ⟨rfl, rfl, rfl, rfl⟩

/-- C8: for every GameState (with no game-over precondition),
`createMonsterChaseState` sets eaten = true and the monster to
`{x: -20, y: current y, chomp: false}`, preserving needs, level, levelTime,
status, and the unicorn's position exactly. -/
theorem c8_monsterChase (s : GameState) :
    (createMonsterChaseState s).eaten = true ∧
    (createMonsterChaseState s).monster = { x := -20, y := s.y, chomp := false } ∧
    (createMonsterChaseState s).needs = s.needs ∧
    (createMonsterChaseState s).level = s.level ∧
    (createMonsterChaseState s).levelTime = s.levelTime ∧
    (createMonsterChaseState s).status = s.status ∧
    (createMonsterChaseState s).x = s.x ∧
    (createMonsterChaseState s).y = s.y :=
  ⟨rfl, rfl, rfl, rfl, rfl, rfl, rfl, rfl⟩

/-- C9: for every level L ≥ 1, the drain multiplier is `1 + (L-1)×0.80` and
the recharge multiplier is `1 + (L-1)×0.30`; both equal 1 at L = 1,
consecutive levels differ by 0.80 and 0.30 respectively, and the drain
multiplier strictly exceeds the recharge multiplier for every L > 1. -/
theorem c9_multipliers (L : ℚ) (hL : 1 ≤ L) :
    calculateDrainMultiplier L = 1 + (L - 1) * (8/10) ∧
    calculateRechargeMultiplier L = 1 + (L - 1) * (3/10) ∧
    calculateDrainMultiplier 1 = 1 ∧
    calculateRechargeMultiplier 1 = 1 ∧
    calculateDrainMultiplier (L + 1) - calculateDrainMultiplier L = 8/10 ∧
    calculateRechargeMultiplier (L + 1) - calculateRechargeMultiplier L = 3/10 ∧
    (1 < L → calculateRechargeMultiplier L < calculateDrainMultiplier L) := by
  refine ⟨rfl, rfl,
    by unfold calculateDrainMultiplier; ring,
    by unfold calculateRechargeMultiplier; ring,
    by unfold calculateDrainMultiplier DRAIN_GROWTH; ring,
    by unfold calculateRechargeMultiplier RECHARGE_GROWTH; ring, ?_⟩
  intro h1
  unfold calculateDrainMultiplier calculateRechargeMultiplier DRAIN_GROWTH RECHARGE_GROWTH
  nlinarith

theorem c9_witness :
    calculateRechargeMultiplier 2 < calculateDrainMultiplier 2 :=
  (c9_multipliers 2 (by norm_num)).2.2.2.2.2.2 (by norm_num)

/-- C10: `createInitialState` returns position (15, 25), all four needs at
100, level 1, levelTime 30, no status, eaten = false, and monster
`{x: -20, y: 50, chomp: false}`; consequently the initial state is not
terminal: `checkGameOver` is false on its needs and `checkLevelComplete` is
false on its levelTime. -/
theorem c10_initialState :
    createInitialState.x = 15 ∧ createInitialState.y = 25 ∧
    createInitialState.needs = { hunger := 100, thirst := 100, energy := 100, fun_ := 100 } ∧
    createInitialState.level = 1 ∧ createInitialState.levelTime = 30 ∧
    createInitialState.status = none ∧ createInitialState.eaten = false ∧
    createInitialState.monster = { x := -20, y := 50, chomp := false } ∧
    checkGameOver createInitialState.needs = false ∧
    checkLevelComplete createInitialState.levelTime = false := by
  refine ⟨rfl, rfl, rfl, rfl, rfl, rfl, rfl, rfl, ?_, ?_⟩
  · decide
  · decide
